import Mathlib

/-!
Shallow embedding of the core concurrency primitives of `webutil`
(`src/channel.rs`, `src/task.rs`): the multi-producer FIFO channel,
the one-shot handoff, and the callback bridge (`Task` / `Consumer`).

Wakers are modelled as opaque identifiers (`Nat`).  Each Rust operation
becomes a pure function from the pre-state to the post-state, together
with the list of wakers it fires and its return value.  The runtime
borrow discipline of the `RefCell` is modelled separately by per-operation
event traces (`Ev`): the order of `borrow_mut` acquisition, `RefMut`
release, waker firing and invocation of externally-supplied closures,
transliterated from the statement order of the source.
-/

/-- Opaque reschedule handle (`std::task::Waker`); identity only. -/
abbrev Waker := Nat

/-- `std::task::Poll`. -/
inductive Poll (α : Type) where
  | Ready : α → Poll α
  | Pending : Poll α
  deriving DecidableEq, Repr

/-- `channel::TryRecvError`. -/
inductive TryRecvError where
  | Empty
  | Closed
  deriving DecidableEq, Repr

/-- `channel::ChannelState<T>`: field-for-field from the source
(`recvs`, `waker`, `senders`, `queue`); the `VecDeque` is a list with
`push_back` appending at the right and `pop_front` taking the head. -/
structure ChannelState (T : Type) where
  recvs : Nat
  waker : Option Waker
  senders : Nat
  queue : List T
  deriving DecidableEq, Repr

/-- `channel::channel()`: the freshly constructed shared state. -/
def channelInit (T : Type) : ChannelState T :=
  { recvs := 1, senders := 1, waker := none, queue := [] }

/-- `Sender::send`: returns the post-state, the waker fired (if any) and
the `Result<(), T>`.  On success the value is pushed to the back of the
queue and the waker slot is taken (cleared) and fired. -/
def Sender.send (s : ChannelState T) (v : T) :
    ChannelState T × Option Waker × Except T Unit :=
  if s.recvs > 0 then
    ({ s with queue := s.queue ++ [v], waker := none }, s.waker, Except.ok ())
  else
    (s, none, Except.error v)

/-- `Drop for Sender`: decrement `senders`; when it reaches zero, take and
fire any stored waker. -/
def Sender.dropHandle (s : ChannelState T) : ChannelState T × Option Waker :=
  let s1 := { s with senders := s.senders - 1 }
  if s1.senders = 0 then
    ({ s1 with waker := none }, s1.waker)
  else
    (s1, none)

/-- `Clone for Sender`: increment `senders`. -/
def Sender.cloneHandle (s : ChannelState T) : ChannelState T :=
  { s with senders := s.senders + 1 }

/-- `Receiver::try_recv`. -/
def Receiver.try_recv (s : ChannelState T) :
    ChannelState T × Except TryRecvError T :=
  match s.queue with
  | v :: rest => ({ s with queue := rest }, Except.ok v)
  | [] =>
    if s.senders = 0 then
      (s, Except.error TryRecvError.Closed)
    else
      (s, Except.error TryRecvError.Empty)

/-- `Drop for Receiver`: decrement `recvs`. -/
def Receiver.dropHandle (s : ChannelState T) : ChannelState T :=
  { s with recvs := s.recvs - 1 }

/-- `Clone for Receiver`: increment `recvs`. -/
def Receiver.cloneHandle (s : ChannelState T) : ChannelState T :=
  { s with recvs := s.recvs + 1 }

/-- `<RecvFuture as Future>::poll`: `try_recv`, and on `Empty` store
(`Option::replace`) the caller's waker and return `Pending`. -/
def RecvFuture.poll (s : ChannelState T) (w : Waker) :
    ChannelState T × Poll (Option T) :=
  match Receiver.try_recv s with
  | (s1, Except.ok v) => (s1, Poll.Ready (some v))
  | (s1, Except.error TryRecvError.Closed) => (s1, Poll.Ready none)
  | (s1, Except.error TryRecvError.Empty) =>
    ({ s1 with waker := some w }, Poll.Pending)

/-- `channel::OneshotState<T>`: fields `v`, `waker`, `recv_exists`,
`send_exists` as in the source. -/
structure OneshotState (T : Type) where
  v : Option T
  waker : Option Waker
  recv_exists : Bool
  send_exists : Bool
  deriving DecidableEq, Repr

/-- `channel::oneshot()`: the freshly constructed shared state. -/
def oneshotInit (T : Type) : OneshotState T :=
  { v := none, waker := none, recv_exists := true, send_exists := true }

/-- The body of `Oneshot::resolve` (before the implicit drop of `self`):
if `recv_exists`, store the value (`Option::replace`), take and fire any
stored waker, succeed; else fail returning the value. -/
def Oneshot.resolveBody (s : OneshotState T) (val : T) :
    OneshotState T × Option Waker × Except T Unit :=
  if s.recv_exists then
    ({ s with v := some val, waker := none }, s.waker, Except.ok ())
  else
    (s, none, Except.error val)

/-- `Drop for Oneshot`: set `send_exists := false`, take and fire any
stored waker. -/
def Oneshot.dropHandle (s : OneshotState T) : OneshotState T × Option Waker :=
  ({ s with send_exists := false, waker := none }, s.waker)

/-- `Oneshot::resolve(self, v)` as the complete operation: `resolve`
takes `self` by value, so `Drop for Oneshot` runs when the body returns.
Returns the post-state, the wakers fired (in order) and the result. -/
def Oneshot.resolve (s : OneshotState T) (val : T) :
    OneshotState T × List Waker × Except T Unit :=
  let (s1, w1, r) := Oneshot.resolveBody s val
  let (s2, w2) := Oneshot.dropHandle s1
  (s2, w1.toList ++ w2.toList, r)

/-- `Once::try_recv`: take the slot if present; otherwise `Empty` while
the producer exists, `Closed` once it does not. -/
def Once.try_recv (s : OneshotState T) :
    OneshotState T × Except TryRecvError T :=
  match s.v with
  | some v => ({ s with v := none }, Except.ok v)
  | none =>
    if s.send_exists then
      (s, Except.error TryRecvError.Empty)
    else
      (s, Except.error TryRecvError.Closed)

/-- `Drop for Once`: set `recv_exists := false`. -/
def Once.dropHandle (s : OneshotState T) : OneshotState T :=
  { s with recv_exists := false }

/-- `<Once as Future>::poll`: `try_recv`, and on `Empty` store the
caller's waker and return `Pending`. -/
def Once.poll (s : OneshotState T) (w : Waker) :
    OneshotState T × Poll (Option T) :=
  match Once.try_recv s with
  | (s1, Except.ok v) => (s1, Poll.Ready (some v))
  | (s1, Except.error TryRecvError.Closed) => (s1, Poll.Ready none)
  | (s1, Except.error TryRecvError.Empty) =>
    ({ s1 with waker := some w }, Poll.Pending)

/-- The synchronous effect of a `task.rs` registration closure
`F: FnOnce(Consumer<T>)` on the consumer's shared cells: given the
current contents of the result cell and the waker cell, it yields their
new contents and the wakers it fired before returning.  (A closure that
stashes the `Consumer` for a later external trigger is the identity with
no wakes; a closure that calls `consume(v)` is `Consumer.consume · v`.) -/
abbrev Fc (T : Type) :=
  Option T × Option Waker → (Option T × Option Waker) × List Waker

/-- `Consumer::consume(self, v)`: `result.replace(v)`, then take the
waker cell and fire it if present. -/
def Consumer.consume (cells : Option T × Option Waker) (v : T) :
    (Option T × Option Waker) × List Waker :=
  ((some v, none), (cells.2).toList)

/-- The registration closure that calls `consume(v)` before returning. -/
def syncRegistration (v : T) : Fc T :=
  fun cells => Consumer.consume cells v

/-- The observable state of a `task.rs` `Task<T, F>` together with the
waker cell created on the first poll and shared with the `Consumer`:
`result` is the `Rc<RefCell<Option<T>>>` slot, `task` the stored
registration closure, `cwaker` the contents of the waker cell. -/
structure TaskWorld (T : Type) where
  result : Option T
  task : Option (Fc T)
  cwaker : Option Waker

/-- `Task::new(f)`. -/
def Task.new (f : Fc T) : TaskWorld T :=
  { result := none, task := some f, cwaker := none }

/-- `<Task as Future>::poll`: take the result slot; if filled, `Ready`.
Otherwise take the closure; if present, create a fresh (empty) waker
cell, invoke the closure on the cells, store the caller's waker into the
cell, and re-poll `self` — at that point the result slot holds whatever
the closure wrote and the closure slot is empty, so the tail call is
unfolded to its two possible outcomes.  If the closure was already
taken, return `Pending` (the waker cell is unreachable from the `Task`
and is left untouched). -/
def Task.poll (w : TaskWorld T) (ctxW : Waker) :
    TaskWorld T × Poll T × List Waker :=
  match w.result with
  | some v => ({ w with result := none }, Poll.Ready v, [])
  | none =>
    match w.task with
    | none => ({ w with result := none, task := none }, Poll.Pending, [])
    | some f =>
      let ((r1, _), fired) := f (none, none)
      match r1 with
      | some v =>
        ({ result := none, task := none, cwaker := some ctxW },
          Poll.Ready v, fired)
      | none =>
        ({ result := none, task := none, cwaker := some ctxW },
          Poll.Pending, fired)

/-- Borrow-discipline events, in source statement order: `acq` is a
`borrow_mut()` on a shared cell, `rel` the drop of the resulting
`RefMut`, `wake` a `Waker::wake()` call, `callf` the invocation of an
externally-supplied closure. -/
inductive Ev where
  | acq
  | rel
  | wake
  | callf
  deriving DecidableEq, Repr

/-- Does some `wake` event occur while at least one borrow is held?
`d` is the number of currently held borrows. -/
def wakeWhileBorrowed : List Ev → Nat → Bool
  | [], _ => false
  | Ev.acq :: es, d => wakeWhileBorrowed es (d + 1)
  | Ev.rel :: es, d => wakeWhileBorrowed es (d - 1)
  | Ev.wake :: es, d => decide (0 < d) || wakeWhileBorrowed es d
  | Ev.callf :: es, d => wakeWhileBorrowed es d

/-- Does some `callf` event occur while at least one borrow is held? -/
def callfWhileBorrowed : List Ev → Nat → Bool
  | [], _ => false
  | Ev.acq :: es, d => callfWhileBorrowed es (d + 1)
  | Ev.rel :: es, d => callfWhileBorrowed es (d - 1)
  | Ev.wake :: es, d => callfWhileBorrowed es d
  | Ev.callf :: es, d => decide (0 < d) || callfWhileBorrowed es d

/-- Event trace of `Sender::send`: `borrow_mut` at the top; on the
success path the waker (if stored) is woken inside the borrow's scope;
the `RefMut` local is dropped when the function returns. -/
def Sender.sendEvents (s : ChannelState T) : List Ev :=
  [Ev.acq]
    ++ (if s.recvs > 0 ∧ s.waker.isSome then [Ev.wake] else [])
    ++ [Ev.rel]

/-- Event trace of `Drop for Sender`. -/
def Sender.dropEvents (s : ChannelState T) : List Ev :=
  [Ev.acq]
    ++ (if s.senders - 1 = 0 ∧ s.waker.isSome then [Ev.wake] else [])
    ++ [Ev.rel]

/-- Event trace of the body of `Oneshot::resolve`. -/
def Oneshot.resolveEvents (s : OneshotState T) : List Ev :=
  [Ev.acq]
    ++ (if s.recv_exists ∧ s.waker.isSome then [Ev.wake] else [])
    ++ [Ev.rel]

/-- Event trace of `Drop for Oneshot`. -/
def Oneshot.dropEvents (s : OneshotState T) : List Ev :=
  [Ev.acq]
    ++ (if s.waker.isSome then [Ev.wake] else [])
    ++ [Ev.rel]

/-- Event trace of `<Task as Future>::poll`: each `borrow_mut()` here is
a statement-scoped temporary, released at the end of its statement, so
the registration closure is invoked with no borrow held. -/
def Task.pollEvents (w : TaskWorld T) : List Ev :=
  [Ev.acq, Ev.rel]
    ++ (match w.result with
        | some _ => []
        | none =>
          [Ev.acq, Ev.rel]
            ++ (match w.task with
                | none => []
                | some f =>
                  [Ev.callf, Ev.acq, Ev.rel, Ev.acq, Ev.rel]
                    ++ (match (f (none, none)).1.1 with
                        | some _ => []
                        | none => [Ev.acq, Ev.rel])))

/-- Iterated `send`: thread the state through `send v` for each value. -/
def sendAll (s : ChannelState T) : List T → ChannelState T
  | [] => s
  | v :: vs => sendAll (Sender.send s v).1 vs

/-- Did every `send` in the sequence succeed? -/
def sendAllOk (s : ChannelState T) : List T → Bool
  | [] => true
  | v :: vs =>
    match Sender.send s v with
    | (s1, _, Except.ok _) => sendAllOk s1 vs
    | (_, _, Except.error _) => false

/-- Values returned by `n` successive `try_recv` calls, stopping at the
first unsuccessful one. -/
def recvN (s : ChannelState T) : Nat → List T
  | 0 => []
  | n + 1 =>
    match Receiver.try_recv s with
    | (s1, Except.ok v) => v :: recvN s1 n
    | (_, Except.error _) => []

/-! ### Helper lemmas -/

/-- Unfolding of `send` on a state with a live consumer. -/
theorem Sender.send_pos (s : ChannelState T) (v : T) (h : s.recvs > 0) :
    Sender.send s v
      = ({ s with queue := s.queue ++ [v], waker := none }, s.waker,
          Except.ok ()) := by
  simp [Sender.send, h]

/-- Unfolding of `send` on a state with no live consumer. -/
theorem Sender.send_zero (s : ChannelState T) (v : T) (h : s.recvs = 0) :
    Sender.send s v = (s, none, Except.error v) := by
  simp [Sender.send, h]

/-- Threading a whole list of sends through a state with a live
consumer: every send succeeds, the values are appended to the queue in
order, and the consumer count is untouched. -/
theorem sendAll_spec (vs : List T) :
    ∀ (s : ChannelState T), s.recvs > 0 →
      (sendAll s vs).queue = s.queue ++ vs
        ∧ (sendAll s vs).recvs = s.recvs
        ∧ sendAllOk s vs = true := by
  induction vs with
  | nil => intro s _; simp [sendAll, sendAllOk]
  | cons v vs ih =>
    intro s h
    have hs := Sender.send_pos s v h
    have ih1 := ih { s with queue := s.queue ++ [v], waker := none } h
    constructor
    · show (sendAll (Sender.send s v).1 vs).queue = _
      rw [hs]
      simpa using ih1.1
    constructor
    · show (sendAll (Sender.send s v).1 vs).recvs = _
      rw [hs]
      exact ih1.2.1
    · show sendAllOk s (v :: vs) = true
      unfold sendAllOk
      rw [hs]
      exact ih1.2.2

/-- Popping exactly as many values as the queue holds returns the queue. -/
theorem recvN_exact (q : List T) :
    ∀ (s : ChannelState T), s.queue = q → recvN s q.length = q := by
  induction q with
  | nil => intro s _; simp [recvN]
  | cons v rest ih =>
    intro s hq
    have ht : Receiver.try_recv s = ({ s with queue := rest }, Except.ok v) := by
      simp [Receiver.try_recv, hq]
    show recvN s (rest.length + 1) = v :: rest
    unfold recvN
    rw [ht]
    simpa using ih { s with queue := rest } rfl

/-! ### Claim theorems -/

/-- C1, counterexample: the claim says every operation releases its
exclusive borrow before firing a stored waker, but `Sender::send` on a
channel with one live consumer and a stored waker fires the waker while
the `RefMut` of the shared state is still held. -/
theorem c1_counterexample :
    wakeWhileBorrowed
      (Sender.sendEvents
        ({ recvs := 1, waker := some 0, senders := 1, queue := [] } :
          ChannelState Nat)) 0 = true := by
  decide

/-- C1, amended: whenever `Sender::send`, `Drop for Sender`,
`Oneshot::resolve` or `Drop for Oneshot` fires a stored waker, it does
so while still holding the exclusive borrow of the shared state; the
borrow is released only when the operation returns.  Only `Task::poll`
invokes externally-supplied code (the registration closure) with no
borrow held. -/
theorem c1_borrow_held_across_wake {T U : Type} :
    (∀ s : ChannelState T, s.recvs > 0 → s.waker.isSome = true →
        wakeWhileBorrowed (Sender.sendEvents s) 0 = true)
  ∧ (∀ s : ChannelState T, s.senders = 1 → s.waker.isSome = true →
        wakeWhileBorrowed (Sender.dropEvents s) 0 = true)
  ∧ (∀ s : OneshotState T, s.recv_exists = true → s.waker.isSome = true →
        wakeWhileBorrowed (Oneshot.resolveEvents s) 0 = true)
  ∧ (∀ s : OneshotState T, s.waker.isSome = true →
        wakeWhileBorrowed (Oneshot.dropEvents s) 0 = true)
  ∧ (∀ w : TaskWorld U, callfWhileBorrowed (Task.pollEvents w) 0 = false) := by
  refine ⟨?_, ?_, ?_, ?_, ?_⟩
  · intro s h1 h2
    simp only [Sender.sendEvents, h1, h2]
    decide
  · intro s h1 h2
    simp only [Sender.dropEvents, h1, h2]
    decide
  · intro s h1 h2
    simp only [Oneshot.resolveEvents, h1, h2]
    decide
  · intro s h2
    simp only [Oneshot.dropEvents, h2]
    decide
  · intro w
    rcases hr : w.result with _ | v
    · rcases ht : w.task with _ | f
      · simp only [Task.pollEvents, hr, ht]
        decide
      · rcases hf : (f (none, none)).1.1 with _ | v1 <;>
          · simp only [Task.pollEvents, hr, ht, hf]
            decide
    · simp only [Task.pollEvents, hr]
      decide

/-- C1, witness for the amended theorem at concrete states. -/
theorem c1_borrow_held_across_wake_witness :
    wakeWhileBorrowed
      (Sender.sendEvents
        ({ recvs := 1, waker := some 3, senders := 1, queue := [] } :
          ChannelState Nat)) 0 = true
  ∧ wakeWhileBorrowed
      (Sender.dropEvents
        ({ recvs := 1, waker := some 3, senders := 1, queue := [] } :
          ChannelState Nat)) 0 = true
  ∧ wakeWhileBorrowed
      (Oneshot.resolveEvents
        ({ v := none, waker := some 3, recv_exists := true,
            send_exists := true } : OneshotState Nat)) 0 = true
  ∧ wakeWhileBorrowed
      (Oneshot.dropEvents
        ({ v := none, waker := some 3, recv_exists := true,
            send_exists := true } : OneshotState Nat)) 0 = true
  ∧ callfWhileBorrowed
      (Task.pollEvents
        ({ result := none, task := none, cwaker := none } :
          TaskWorld Nat)) 0 = false :=
  ⟨(c1_borrow_held_across_wake (U := Nat)).1 _ (by decide) (by decide),
   (c1_borrow_held_across_wake (U := Nat)).2.1 _ (by decide) (by decide),
   (c1_borrow_held_across_wake (U := Nat)).2.2.1 _ (by decide) (by decide),
   (c1_borrow_held_across_wake (U := Nat)).2.2.2.1 _ (by decide),
   (c1_borrow_held_across_wake (T := Nat)).2.2.2.2 _⟩

/-- C2: FIFO law — starting from any channel state with a live consumer
and an empty queue, a sequence of sends all succeeds and successive
receives return exactly those values in send order. -/
theorem c2_channel_fifo (s : ChannelState T) (vs : List T)
    (h : s.recvs > 0) (hq : s.queue = []) :
    sendAllOk s vs = true ∧ recvN (sendAll s vs) vs.length = vs := by
  obtain ⟨h1, _, h3⟩ := sendAll_spec vs s h
  refine ⟨h3, ?_⟩
  have hqv : (sendAll s vs).queue = vs := by
    rw [h1, hq, List.nil_append]
  exact recvN_exact vs _ hqv

/-- C2, witness: a fresh channel, sending 3, 1, 2. -/
theorem c2_channel_fifo_witness :
    sendAllOk (channelInit Nat) [3, 1, 2] = true
      ∧ recvN (sendAll (channelInit Nat) [3, 1, 2]) 3 = [3, 1, 2] :=
  c2_channel_fifo (channelInit Nat) [3, 1, 2] (by decide) rfl

/-- C3: `send(v)` fails returning `v` unchanged exactly when
`recvs = 0`; otherwise it appends `v` to the back of the queue, fires
the stored waker (if any) and clears the waker slot. -/
theorem c3_send_spec (s : ChannelState T) (v : T) :
    ((Sender.send s v).2.2 = Except.error v ↔ s.recvs = 0)
  ∧ (s.recvs = 0 → Sender.send s v = (s, none, Except.error v))
  ∧ (s.recvs ≠ 0 →
      Sender.send s v
        = ({ s with queue := s.queue ++ [v], waker := none }, s.waker,
            Except.ok ())) := by
  rcases Nat.eq_zero_or_pos s.recvs with h | h
  · simp [Sender.send_zero s v h, h]
  · have hne : s.recvs ≠ 0 := Nat.pos_iff_ne_zero.mp h
    simp [Sender.send_pos s v h, hne]

/-- C3, witness: a rejected send on a consumer-less channel and a
successful send on a live one. -/
theorem c3_send_spec_witness :
    Sender.send ({ recvs := 0, waker := none, senders := 1, queue := [] } :
        ChannelState Nat) 5
      = ({ recvs := 0, waker := none, senders := 1, queue := [] }, none,
          Except.error 5)
  ∧ Sender.send ({ recvs := 1, waker := some 2, senders := 1, queue := [9] } :
        ChannelState Nat) 5
      = ({ recvs := 1, waker := none, senders := 1, queue := [9, 5] }, some 2,
          Except.ok ()) :=
  ⟨(c3_send_spec _ 5).2.1 rfl,
   (c3_send_spec (⟨1, some 2, 1, [9]⟩ : ChannelState Nat) 5).2.2
     (by decide)⟩

/-- C4: `try_recv` pops the front of a non-empty queue regardless of the
producer count; on an empty queue it returns `Closed` when no producer
is left and `Empty` otherwise, leaving the state unchanged. -/
theorem c4_try_recv_spec (s : ChannelState T) :
    (∀ v rest, s.queue = v :: rest →
        Receiver.try_recv s = ({ s with queue := rest }, Except.ok v))
  ∧ (s.queue = [] → s.senders = 0 →
        Receiver.try_recv s = (s, Except.error TryRecvError.Closed))
  ∧ (s.queue = [] → s.senders ≠ 0 →
        Receiver.try_recv s = (s, Except.error TryRecvError.Empty)) := by
  refine ⟨?_, ?_, ?_⟩ <;> intros <;> simp [Receiver.try_recv, *]

/-- C4, witness: a queued value remains receivable after the last
producer is gone; empty-queue outcomes at both producer counts. -/
theorem c4_try_recv_spec_witness :
    Receiver.try_recv (⟨1, none, 0, [7]⟩ : ChannelState Nat)
      = (⟨1, none, 0, []⟩, Except.ok 7)
  ∧ Receiver.try_recv (⟨1, none, 0, []⟩ : ChannelState Nat)
      = (⟨1, none, 0, []⟩, Except.error TryRecvError.Closed)
  ∧ Receiver.try_recv (⟨1, none, 1, []⟩ : ChannelState Nat)
      = (⟨1, none, 1, []⟩, Except.error TryRecvError.Empty) :=
  ⟨(c4_try_recv_spec _).1 7 [] rfl,
   (c4_try_recv_spec _).2.1 rfl rfl,
   (c4_try_recv_spec (⟨1, none, 1, []⟩ : ChannelState Nat)).2.2 rfl
     (by decide)⟩

/-- C5: polling `receive` on a closed channel with an empty queue
completes immediately to `Ready none` without storing a waker; the poll
suspends (returns `Pending`, storing the caller's waker) exactly when
the queue is empty and a producer is still live. -/
theorem c5_recv_poll_spec (s : ChannelState T) (w : Waker) :
    (s.senders = 0 → s.queue = [] →
        RecvFuture.poll s w = (s, Poll.Ready none))
  ∧ ((RecvFuture.poll s w).2 = Poll.Pending ↔ s.queue = [] ∧ s.senders ≠ 0)
  ∧ (s.queue = [] → s.senders ≠ 0 →
        RecvFuture.poll s w = ({ s with waker := some w }, Poll.Pending)) := by
  refine ⟨?_, ?_, ?_⟩
  · intro hs hq
    simp [RecvFuture.poll, Receiver.try_recv, hq, hs]
  · rcases hq : s.queue with _ | ⟨v, rest⟩
    · by_cases hs : s.senders = 0 <;>
        simp [RecvFuture.poll, Receiver.try_recv, hq, hs]
    · simp [RecvFuture.poll, Receiver.try_recv, hq]
  · intro hq hs
    simp [RecvFuture.poll, Receiver.try_recv, hq, hs]

/-- C5, witness: closed channel polls ready-with-none; open empty
channel polls pending and stores the waker. -/
theorem c5_recv_poll_spec_witness :
    RecvFuture.poll (⟨1, none, 0, []⟩ : ChannelState Nat) 7
      = (⟨1, none, 0, []⟩, Poll.Ready none)
  ∧ RecvFuture.poll (⟨1, none, 1, []⟩ : ChannelState Nat) 7
      = (⟨1, some 7, 1, []⟩, Poll.Pending) :=
  ⟨(c5_recv_poll_spec _ 7).1 rfl rfl,
   (c5_recv_poll_spec (⟨1, none, 1, []⟩ : ChannelState Nat) 7).2.2 rfl
     (by decide)⟩

/-- C6: on a fresh one-shot pair, `resolve(42)` succeeds (and, since
`resolve` consumes the producer handle, its drop glue clears
`send_exists`), the first `try_recv` returns 42, and a second `try_recv`
returns `Closed`. -/
theorem c6_oneshot_success :
    Oneshot.resolve (oneshotInit Nat) 42
      = (⟨some 42, none, true, false⟩, [], Except.ok ())
  ∧ Once.try_recv (⟨some 42, none, true, false⟩ : OneshotState Nat)
      = (⟨none, none, true, false⟩, Except.ok 42)
  ∧ Once.try_recv (⟨none, none, true, false⟩ : OneshotState Nat)
      = (⟨none, none, true, false⟩, Except.error TryRecvError.Closed) :=
  ⟨rfl, rfl, rfl⟩

/-- C7: dropping the producer handle of a one-shot clears
`send_exists`, takes and fires the stored waker, and a subsequent
consumer poll (the slot being empty) completes to `Ready none`. -/
theorem c7_oneshot_drop_wakes (s : OneshotState T) (w0 w : Waker)
    (hw : s.waker = some w0) (hv : s.v = none) :
    Oneshot.dropHandle s
      = ({ s with send_exists := false, waker := none }, some w0)
  ∧ Once.poll { s with send_exists := false, waker := none } w
      = ({ s with send_exists := false, waker := none },
          Poll.Ready none) := by
  constructor
  · simp [Oneshot.dropHandle, hw]
  · simp [Once.poll, Once.try_recv, hv]

/-- C7, witness: producer dropped while a consumer waker is stored. -/
theorem c7_oneshot_drop_wakes_witness :
    Oneshot.dropHandle (⟨none, some 4, true, true⟩ : OneshotState Nat)
      = (⟨none, none, true, false⟩, some 4)
  ∧ Once.poll (⟨none, none, true, false⟩ : OneshotState Nat) 9
      = (⟨none, none, true, false⟩, Poll.Ready none) :=
  c7_oneshot_drop_wakes (⟨none, some 4, true, true⟩ : OneshotState Nat)
    4 9 rfl rfl

/-- C8: if the registration closure calls `consume(v)` before
returning, the first poll of the task yields `Ready v` on that same
poll: the bridge re-reads the result slot right after invoking the
closure. -/
theorem c8_task_sync_resolution (f : Fc T) (v : T) (cw : Waker)
    (hf : ∀ cells, f cells = Consumer.consume cells v) :
    Task.poll (Task.new f) cw
      = ({ result := none, task := none, cwaker := some cw },
          Poll.Ready v, []) := by
  simp [Task.poll, Task.new, hf, Consumer.consume]

/-- C8, witness: a synchronously-resolving registration closure. -/
theorem c8_task_sync_resolution_witness :
    Task.poll (Task.new (syncRegistration 7)) 3
      = ({ result := none, task := none, cwaker := some 3 },
          Poll.Ready (7 : Nat), []) :=
  c8_task_sync_resolution (syncRegistration 7) 7 3 (fun _ => rfl)

/-- C9, counterexample: the claim says every poll that returns `Pending`
stores the current caller's waker, but a second poll of a task bridge
(closure already taken, no result) returns `Pending` without touching
the waker cell — the previously stored waker 0 survives, caller 1's
waker is not stored. -/
theorem c9_counterexample :
    (Task.poll ({ result := none, task := none, cwaker := some 0 } :
        TaskWorld Nat) 1).2.1 = Poll.Pending
  ∧ (Task.poll ({ result := none, task := none, cwaker := some 0 } :
        TaskWorld Nat) 1).1.cwaker ≠ some 1 :=
  ⟨rfl, by decide⟩

/-- C9, amended: at most one waker is stored per state (the slot is an
`Option`); channel and one-shot polls returning `Pending` do store the
caller's waker, overwriting any previous one, and the task bridge
stores the caller's waker on the poll that invokes the registration
closure — but a later poll of the bridge that returns `Pending` leaves
the previously stored waker in place. -/
theorem c9_single_slot_amended {T : Type} :
    (∀ (s : ChannelState T) (w : Waker),
        (RecvFuture.poll s w).2 = Poll.Pending →
          (RecvFuture.poll s w).1.waker = some w)
  ∧ (∀ (s : OneshotState T) (w : Waker),
        (Once.poll s w).2 = Poll.Pending →
          (Once.poll s w).1.waker = some w)
  ∧ (∀ (f : Fc T) (w : Waker),
        (Task.poll (Task.new f) w).1.cwaker = some w)
  ∧ (∀ (cw0 : Option Waker) (w : Waker),
        Task.poll ({ result := none, task := none, cwaker := cw0 } :
            TaskWorld T) w
          = ({ result := none, task := none, cwaker := cw0 },
              Poll.Pending, [])) := by
  refine ⟨?_, ?_, ?_, ?_⟩
  · intro s w h
    rcases hq : s.queue with _ | ⟨v, rest⟩
    · by_cases hs : s.senders = 0
      · exfalso
        simp [RecvFuture.poll, Receiver.try_recv, hq, hs] at h
      · simp [RecvFuture.poll, Receiver.try_recv, hq, hs]
    · exfalso
      simp [RecvFuture.poll, Receiver.try_recv, hq] at h
  · intro s w h
    rcases hv : s.v with _ | v
    · cases hs : s.send_exists
      · exfalso
        simp [Once.poll, Once.try_recv, hv, hs] at h
      · simp [Once.poll, Once.try_recv, hv, hs]
    · exfalso
      simp [Once.poll, Once.try_recv, hv] at h
  · intro f w
    rcases hf : f (none, none) with ⟨⟨r1, cw1⟩, fired⟩
    cases r1 <;> simp [Task.poll, Task.new, hf]
  · intro cw0 w
    rfl

/-- C9, witness for the amended theorem at concrete states. -/
theorem c9_single_slot_amended_witness :
    (RecvFuture.poll (⟨1, none, 1, []⟩ : ChannelState Nat) 5).1.waker
        = some 5
  ∧ (Once.poll (⟨none, none, true, true⟩ : OneshotState Nat) 6).1.waker
        = some 6
  ∧ (Task.poll (Task.new ((fun cells => (cells, [])) : Fc Nat)) 8).1.cwaker
        = some 8
  ∧ Task.poll ({ result := none, task := none, cwaker := some 2 } :
        TaskWorld Nat) 9
      = ({ result := none, task := none, cwaker := some 2 },
          Poll.Pending, []) :=
  ⟨(c9_single_slot_amended (T := Nat)).1 _ 5 (by decide),
   (c9_single_slot_amended (T := Nat)).2.1 _ 6 (by decide),
   (c9_single_slot_amended (T := Nat)).2.2.1 _ 8,
   (c9_single_slot_amended (T := Nat)).2.2.2 (some 2) 9⟩

/-- C10: a rejected send (no live consumer) is a no-op on the whole
state — queue, waker slot and both counts are exactly as before — fires
no waker, and hands the value back. -/
theorem c10_send_rejected_noop (s : ChannelState T) (v : T)
    (h : s.recvs = 0) :
    Sender.send s v = (s, none, Except.error v) :=
  Sender.send_zero s v h

/-- C10, witness: rejected send on a state with a queued value and a
stored waker; everything is untouched. -/
theorem c10_send_rejected_noop_witness :
    Sender.send (⟨0, some 3, 2, [9]⟩ : ChannelState Nat) 5
      = (⟨0, some 3, 2, [9]⟩, none, Except.error 5) :=
  c10_send_rejected_noop (⟨0, some 3, 2, [9]⟩ : ChannelState Nat) 5 rfl
